import Mathlib

/-!
Shallow embedding of the `lasv` semantic-versioning audit tool.

The Python sources are translated module by module:
  * `Lasv.context`   — `src/lasv/context.py` (enums, bump detection, compliance,
                        `finish_diagnosis`, `finish_diagnosis_with_error`)
  * `Lasv.lasv_main` — the duplicated copies in `src/lasv_main.py`
  * `Lasv.llm`       — `src/lasv/llm.py` (`query_model` retry loop)
  * `Lasv.specs`     — `src/lasv/specs.py` (`_get_public_spec`, `compare_spec_content`)
  * `Lasv.releases`  — `src/lasv/releases.py` (`is_private_package`,
                        `compare_spec_files`, `fix_version`, `find_pairs`)

Machine-independent data is modelled with `Nat`/`String`/`List`; Python
exceptions become an explicit `PyExc` error type threaded through `Except`.
I/O (file reads, HTTP, printing, YAML persistence) is modelled by passing the
data those calls would produce as explicit arguments (file contents, sizes,
a network-attempt oracle, the release-index answers).
-/

namespace Lasv

/-- Enumeration for the type of change (context.py `ChangeType`). -/
inductive ChangeType where
  | MAJOR
  | MINOR
deriving DecidableEq, Repr

/-- The stored string for each change type: `MAJOR = "MAJOR"`, `MINOR = "minor"`. -/
def ChangeType.value : ChangeType → String
  | .MAJOR => "MAJOR"
  | .MINOR => "minor"

/-- Enumeration for compliance status (context.py `Compliance`). -/
inductive Compliance where
  | STRICT
  | LAX
  | NO
  | ERROR
deriving DecidableEq, Repr

/-- The stored string of each compliance value. -/
def Compliance.value : Compliance → String
  | .STRICT => "strict"
  | .LAX => "lax"
  | .NO => "no"
  | .ERROR => "error"

/-- Enumeration for version bump types (context.py `BumpType`). -/
inductive BumpType where
  | MAJOR
  | MINOR
  | PATCH
  | NONE
deriving DecidableEq, Repr

/-- A parsed semantic version as used by the code: only the numeric triple is
ever inspected by `_detect_version_bump`; the prerelease tag is carried along
(build metadata is never consulted and is dropped). -/
structure Version where
  major : Nat
  minor : Nat
  patch : Nat
  prerelease : Option String := none
deriving DecidableEq, Repr

/-- A change as stored in the diagnosis ledger by `emit_change`: the
severity is the stored string value, optional filename keys are absent when
the corresponding `ChangeInfo` field was empty. -/
structure ChangeRec where
  severity : String
  line : Nat
  col : Nat
  description : String
  filename : Option String := none
  old_filename : Option String := none
deriving DecidableEq, Repr

/-- Information about a detected change (context.py `ChangeInfo`), before it
is stored; empty strings mean the optional fields were not provided. -/
structure ChangeInfo where
  severity : ChangeType
  line : Nat
  col : Nat
  description : String
  filename : String := ""
  old_filename : String := ""
deriving DecidableEq, Repr

/-- Python exception values relevant to the translated code.  `isException`
below records which of them are subclasses of `Exception`: `SystemExit`
(raised by `sys.exit`) derives only from `BaseException` and therefore
escapes an `except Exception` handler. -/
inductive PyExc where
  | valueError (msg : String)
  | typeError (msg : String)
  | keyError (msg : String)
  | systemExit (code : Nat)
deriving DecidableEq, Repr

/-- Whether `except Exception` catches this exception: every modelled
exception except `SystemExit` is an `Exception` subclass. -/
def PyExc.isException : PyExc → Bool
  | .systemExit _ => false
  | _ => true

/-- The message text `str(e)` used when an exception is recorded. -/
def PyExc.message : PyExc → String
  | .valueError m => m
  | .typeError m => m
  | .keyError m => m
  | .systemExit c => toString c

/-! ### Modelled external semver parser

The `semver` library is an external dependency (not part of this repository).
-/

/-- Fold a list of decimal digits into the number they denote. -/
def digitsToNat (ds : List Char) : Nat :=
  ds.foldl (fun n c => n * 10 + (c.toNat - 48)) 0

/-- Python regex class `\s` and `str.strip` white space (ASCII range). -/
def isPySpace (c : Char) : Bool :=
  c = ' ' || c = '\t' || c = '\n' || c = '\r' || c.toNat = 11 || c.toNat = 12

/-- Python `s.split(sep)` for a single-character separator over characters:
the separator occurrences delimit the fragments, empty fragments included. -/
def pySplitAux (sep : Char) : List Char → List Char → List String
  | [], acc => [String.mk acc.reverse]
  | c :: rest, acc =>
      if c = sep then String.mk acc.reverse :: pySplitAux sep rest []
      else pySplitAux sep rest (c :: acc)

/-- Python `s.split(sep)` on a string, single-character separator. -/
def pySplit (s : String) (sep : Char) : List String :=
  pySplitAux sep s.toList []

/-- Python `s.strip()` on ASCII white space. -/
def pyStrip (s : String) : String :=
  String.mk
    (((s.toList.dropWhile fun c => isPySpace c).reverse.dropWhile fun c =>
        isPySpace c).reverse)

/-- Parse a decimal numeral the way a strict numeric field must look;
returns `none` for the empty string or any non-digit character. -/
def parseNumField (s : String) : Option Nat :=
  if s.length > 0 ∧ s.toList.all Char.isDigit then some (digitsToNat s.toList) else none

/-- Split a string at the first occurrence of a separator character,
returning the part before it and, when present, everything after it. -/
def splitAtFirst (s : String) (c : Char) : String × Option String :=
  match pySplit s c with
  | [] => (s, none)
  | [x] => (x, none)
  | x :: rest => (x, some (String.intercalate (String.singleton c) rest))

/-- Modelled from the spec: the external `semver.Version.parse`, which accepts
`MAJOR.MINOR.PATCH[-pre][+build]` and raises `ValueError` (InvalidVersion)
otherwise.  Build metadata is dropped; the numeric core must be exactly three
digit fields. -/
def parseVersion (s : String) : Option Version :=
  let (noBuild, _build) := splitAtFirst s '+'
  let (core, pre) := splitAtFirst noBuild '-'
  match pySplit core '.' with
  | [a, b, c] =>
      match parseNumField a, parseNumField b, parseNumField c with
      | some ma, some mi, some pa => some ⟨ma, mi, pa, pre⟩
      | _, _, _ => none
  | _ => none

/-- The per-(release, analyzer) diagnosis record, as stored in the YAML
ledger.  Each field models one optional dictionary key (`none` = key absent).
`start_diagnosis` creates it with `changes := some []`. -/
structure Diagnosis where
  changes : Option (List ChangeRec) := none
  compliant : Option String := none
  noncompliance : Option String := none
  error_message : Option String := none
deriving DecidableEq, Repr

/-- Model of Python `int(s)`: optional surrounding whitespace and sign,
then at least one digit; anything else raises `ValueError` (here `none`). -/
def pyInt (s : String) : Option Int :=
  let t := pyStrip s
  match t.toList with
  | '-' :: rest =>
      if rest ≠ [] ∧ rest.all Char.isDigit then some (-(digitsToNat rest : Int)) else none
  | '+' :: rest =>
      if rest ≠ [] ∧ rest.all Char.isDigit then some ((digitsToNat rest : Int)) else none
  | l =>
      if l ≠ [] ∧ l.all Char.isDigit then some ((digitsToNat l : Int)) else none

namespace context

/-- context.py `_detect_version_bump`: classify the delta between two parsed
versions, with the pre-1.0 rule that a minor bump acts as MAJOR and a patch
bump acts as minor. -/
def _detect_version_bump (v1 v2 : Version) : BumpType :=
  let is_major_bump := v2.major > v1.major
  let is_minor_bump := v2.minor > v1.minor ∧ v2.major = v1.major
  let is_patch_bump := v2.patch > v1.patch ∧ v2.major = v1.major ∧ v2.minor = v1.minor
  if v1.major = 0 then
    if is_minor_bump ∨ is_major_bump then BumpType.MAJOR
    else if is_patch_bump then BumpType.MINOR
    else BumpType.NONE
  else
    if is_major_bump then BumpType.MAJOR
    else if is_minor_bump then BumpType.MINOR
    else if is_patch_bump then BumpType.PATCH
    else BumpType.NONE

/-- context.py `_calculate_compliance`: compliance status from bump type and
the detected major/minor change lists; the structural `files` analyzer is
exempt from the two LAX checks. -/
def _calculate_compliance (bump_type : BumpType) (major_changes minor_changes : List ChangeRec)
    (analyzer : String) : Compliance × String :=
  match bump_type with
  | BumpType.MAJOR =>
      if major_changes = [] ∧ analyzer ≠ "files" then
        (Compliance.LAX, "Major version bump but no MAJOR changes found.")
      else (Compliance.STRICT, "")
  | BumpType.MINOR =>
      if major_changes ≠ [] then
        (Compliance.NO, "Minor version bump but MAJOR changes found.")
      else if minor_changes = [] ∧ analyzer ≠ "files" then
        (Compliance.LAX, "Minor version bump but no minor changes found.")
      else (Compliance.STRICT, "")
  | BumpType.PATCH =>
      if major_changes ≠ [] ∨ minor_changes ≠ [] then
        (Compliance.NO, "Patch version bump but API changes found.")
      else (Compliance.STRICT, "")
  | BumpType.NONE => (Compliance.STRICT, "")

/-- context.py `normalize_model_name`: map `:free` model variants to the same
storage key; falsy input maps to `None`. -/
def normalize_model_name (model : Option String) : Option String :=
  match model with
  | none => none
  | some m =>
      if m = "" then none
      else if (":free".toList).isSuffixOf m.toList then
        some (String.mk (m.toList.take (m.toList.length - 5)))
      else some m

/-- context.py `LasvContext.finish_diagnosis`, restricted to the single
diagnosis record it mutates.  Parses both version strings (a failure is
printed and re-raised, modelled as a `valueError`), filters the stored
changes by severity string, computes the bump and compliance, stores the
`compliant` value and sets the `noncompliance` reason for NO or LAX while
deleting it for the strict branch. -/
def finish_diagnosis (prev_version curr_version analyzer : String) (diag : Diagnosis) :
    Except PyExc Diagnosis :=
  match parseVersion prev_version, parseVersion curr_version with
  | some v1, some v2 =>
      match diag.changes with
      | none => Except.error (PyExc.keyError "changes")
      | some changes =>
          let major_changes := changes.filter (fun c => c.severity == "MAJOR")
          let minor_changes := changes.filter (fun c => c.severity == "minor")
          let bump_type := _detect_version_bump v1 v2
          let cr := _calculate_compliance bump_type major_changes minor_changes analyzer
          let diag := { diag with compliant := some cr.1.value }
          if cr.1 = Compliance.NO then Except.ok { diag with noncompliance := some cr.2 }
          else if cr.1 = Compliance.LAX then Except.ok { diag with noncompliance := some cr.2 }
          else Except.ok { diag with noncompliance := none }
  | _, _ =>
      Except.error (PyExc.valueError
        ("Non-semver version found: " ++ prev_version ++ " -> " ++ curr_version))

/-- context.py `LasvContext.finish_diagnosis_with_error`: keep error status
but remove any partial changes (the `changes` key is deleted). -/
def finish_diagnosis_with_error (error_message : String) (diag : Diagnosis) : Diagnosis :=
  { diag with
      changes := none
      compliant := some Compliance.ERROR.value
      error_message := some error_message }

end context

namespace lasv_main

/-- lasv_main.py `_detect_version_bump`: the duplicated copy of the bump
detector kept in the entry-point module. -/
def _detect_version_bump (v1 v2 : Version) : BumpType :=
  let is_major_bump := v2.major > v1.major
  let is_minor_bump := v2.minor > v1.minor ∧ v2.major = v1.major
  let is_patch_bump := v2.patch > v1.patch ∧ v2.major = v1.major ∧ v2.minor = v1.minor
  if v1.major = 0 then
    if is_minor_bump ∨ is_major_bump then BumpType.MAJOR
    else if is_patch_bump then BumpType.MINOR
    else BumpType.NONE
  else
    if is_major_bump then BumpType.MAJOR
    else if is_minor_bump then BumpType.MINOR
    else if is_patch_bump then BumpType.PATCH
    else BumpType.NONE

/-- lasv_main.py `_calculate_compliance`: the duplicated copy of the
compliance calculator kept in the entry-point module. -/
def _calculate_compliance (bump_type : BumpType) (major_changes minor_changes : List ChangeRec)
    (analyzer : String) : Compliance × String :=
  match bump_type with
  | BumpType.MAJOR =>
      if major_changes = [] ∧ analyzer ≠ "files" then
        (Compliance.LAX, "Major version bump but no MAJOR changes found.")
      else (Compliance.STRICT, "")
  | BumpType.MINOR =>
      if major_changes ≠ [] then
        (Compliance.NO, "Minor version bump but MAJOR changes found.")
      else if minor_changes = [] ∧ analyzer ≠ "files" then
        (Compliance.LAX, "Minor version bump but no minor changes found.")
      else (Compliance.STRICT, "")
  | BumpType.PATCH =>
      if major_changes ≠ [] ∨ minor_changes ≠ [] then
        (Compliance.NO, "Patch version bump but API changes found.")
      else (Compliance.STRICT, "")
  | BumpType.NONE => (Compliance.STRICT, "")

end lasv_main

namespace llm

/-- llm.py `LlmUsage`: usage details of one request.  The cost reported by
the API is modelled as an exact rational (the code only stores and adds it). -/
structure LlmUsage where
  spec_chars : Nat
  system_chars : Nat
  cost : Option ℚ := none
deriving DecidableEq, Repr

/-- What one attempt of the request loop in `query_model` observes, i.e. the
behaviour of the network on that attempt:
  * `success` — HTTP 200 with a well-shaped JSON body (`choices` nonempty);
  * `httpError` — `raise_for_status` raised (status may be missing);
  * `badStructure` — parsed JSON without the expected structure
    (re-raised as a `RequestException` to reuse the backoff logic);
  * `networkError` — timeout or other `RequestException`;
  * `jsonError` — body that is not JSON (`json.JSONDecodeError`). -/
inductive AttemptOutcome where
  | success (content : String) (cost : Option ℚ)
  | httpError (status : Option Nat)
  | badStructure (error_code : Option Nat)
  | networkError (msg : String)
  | jsonError
deriving DecidableEq, Repr

/-- llm.py retry configuration: `max_retries = 6`. -/
def max_retries : Nat := 6

/-- The HTTPError handler retries while `status_code is None or
400 <= status_code < 600`. -/
def retryableStatus : Option Nat → Bool
  | none => true
  | some s => decide (400 ≤ s ∧ s < 600)

/-- The `while retry_count <= max_retries` loop of llm.py `query_model`.
The fuel argument counts the remaining loop iterations (`max_retries + 1 -
retry_count`); running out of fuel is the unreachable fall-through after the
loop, which also calls `sys.exit(1)`.  Every exhausted-retries branch calls
`sys.exit(1)`, modelled as raising `SystemExit`. -/
def retryLoop (attempts : Nat → AttemptOutcome) (usage : LlmUsage) :
    Nat → Nat → Except PyExc (String × LlmUsage)
  | _, 0 => Except.error (PyExc.systemExit 1)
  | retry_count, fuel + 1 =>
      match attempts retry_count with
      | AttemptOutcome.success content cost =>
          Except.ok (content, { usage with cost := cost })
      | AttemptOutcome.httpError status =>
          if retry_count < max_retries ∧ retryableStatus status then
            retryLoop attempts usage (retry_count + 1) fuel
          else Except.error (PyExc.systemExit 1)
      | AttemptOutcome.badStructure _ =>
          if retry_count < max_retries then retryLoop attempts usage (retry_count + 1) fuel
          else Except.error (PyExc.systemExit 1)
      | AttemptOutcome.networkError _ =>
          if retry_count < max_retries then retryLoop attempts usage (retry_count + 1) fuel
          else Except.error (PyExc.systemExit 1)
      | AttemptOutcome.jsonError => Except.error (PyExc.systemExit 1)

/-- llm.py `query_model`: query the judge with exponential-backoff retry
(sleep delays are irrelevant to the result and elided).  The network is
modelled by the `attempts` oracle (outcome of each attempt, indexed by the
retry count) and the system prompt text (`prompts.INSTRUCTIONS["detailed"]`)
by the `prompt` argument.  Note the Python signature takes exactly three
data arguments: `(model, spec1_content, spec2_content)`. -/
def query_model (attempts : Nat → AttemptOutcome) (prompt : String)
    (model spec1_content spec2_content : String) : Except PyExc (String × LlmUsage) :=
  let _ := model
  let sent_system_chars := prompt.length
  let sent_spec_chars := spec1_content.length + spec2_content.length
  retryLoop attempts
    { spec_chars := sent_spec_chars, system_chars := sent_system_chars, cost := none }
    0 (max_retries + 1)

end llm

namespace specs

/-- specs.py `MAX_SPEC_BYTES`. -/
def MAX_SPEC_BYTES : Nat := 64 * 1024

/-- specs.py `SpecComparisonResult`. -/
structure SpecComparisonResult where
  has_major : Bool
  has_minor : Bool
  sent_to_llm : Bool
deriving DecidableEq, Repr

/-- Python `file.readlines()`: split into lines, each keeping its trailing
newline; a final fragment without a newline is kept as-is. -/
def readlinesAux : List Char → List Char → List String
  | [], acc => if acc.isEmpty then [] else [String.mk acc.reverse]
  | c :: rest, acc =>
      if c = '\n' then String.mk (acc.reverse ++ ['\n']) :: readlinesAux rest []
      else readlinesAux rest (c :: acc)

/-- Python `file.readlines()` on a whole content string. -/
def readlines (s : String) : List String :=
  readlinesAux s.toList []

/-- specs.py `_get_public_spec` applied to the file content: the function
body starts with an unconditional `return '\n'.join(lines)`, so everything
after it (the private-part stripping) is dead code and the whole content is
returned with a newline inserted between the newline-terminated lines. -/
def _get_public_spec (content : String) : String :=
  String.intercalate "\n" (readlines content)

/-- Python `str.splitlines()` restricted to the common line boundaries
`\r\n`, `\r` and `\n`. -/
def py_splitlines (s : String) : List String :=
  go s.toList []
where
  go : List Char → List Char → List String
    | [], acc => if acc.isEmpty then [] else [String.mk acc.reverse]
    | '\r' :: '\n' :: rest, acc => String.mk acc.reverse :: go rest []
    | '\r' :: rest, acc => String.mk acc.reverse :: go rest []
    | '\n' :: rest, acc => String.mk acc.reverse :: go rest []
    | c :: rest, acc => go rest (c :: acc)

/-- The anchored regular expression `(MAJOR|minor) \((\d+), (\d+)\): (.*)`
of specs.py applied by `re.match` to one line: severity word, one space,
parenthesised line and column numbers separated by a comma and space, then
a colon, a space and the free-form description. -/
def parse_change_line (line : String) : Option (String × Nat × Nat × String) :=
  let cs := line.toList
  let sev : Option (String × List Char) :=
    if ("MAJOR".toList).isPrefixOf cs then some ("MAJOR", cs.drop 5)
    else if ("minor".toList).isPrefixOf cs then some ("minor", cs.drop 5)
    else none
  match sev with
  | none => none
  | some (sv, rest) =>
      match rest with
      | ' ' :: '(' :: r1 =>
          let ds1 := r1.takeWhile Char.isDigit
          let r2 := r1.dropWhile Char.isDigit
          if ds1.isEmpty then none
          else
            match r2 with
            | ',' :: ' ' :: r3 =>
                let ds2 := r3.takeWhile Char.isDigit
                let r4 := r3.dropWhile Char.isDigit
                if ds2.isEmpty then none
                else
                  match r4 with
                  | ')' :: ':' :: ' ' :: desc =>
                      some (sv, digitsToNat ds1, digitsToNat ds2, String.mk desc)
                  | _ => none
            | _ => none
      | _ => none

/-- Python positional-call semantics: applying a function that declares
`param_count` positional parameters to `arg_count` positional arguments
raises `TypeError` before the callee runs unless the counts agree. -/
def py_call_guard (param_count arg_count : Nat) (fname : String)
    (result : Except PyExc α) : Except PyExc α :=
  if arg_count = param_count then result
  else Except.error (PyExc.typeError
    (fname ++ "() takes " ++ toString param_count ++ " positional arguments but " ++
     toString arg_count ++ " were given"))

/-- The parameter count of llm.py `def query_model(model, spec1_content,
spec2_content)`. -/
def query_model_param_count : Nat := 3

/-- The argument count of the call in specs.py `compare_spec_content`:
`llm.query_model(context.model, spec1_public, spec2_public, prompt_name)`. -/
def judge_call_arg_count : Nat := 4

/-- The network and prompt environment a spec comparison runs in. -/
structure SpecEnv where
  attempts : Nat → llm.AttemptOutcome
  prompt : String

/-- specs.py `compare_spec_content`, with the context reduced to the
configured model and model key, the file system to the two sizes and
contents, and the emissions returned as a list of (analyzer, change) pairs.
Usage accumulation (`add_llm_usage`) and printing are elided.  The judge
invocation goes through `py_call_guard` because the Python call site passes
four positional arguments to the three-parameter `query_model`. -/
def compare_spec_content (env : SpecEnv) (model model_key : Option String)
    (size1 size2 : Nat) (path1 path2 : String) (content1 content2 : String)
    (prompt_name : String) :
    Except PyExc (SpecComparisonResult × List (String × ChangeInfo)) :=
  if model = none then Except.ok (⟨false, false, false⟩, [])
  else if size1 > MAX_SPEC_BYTES then Except.ok (⟨false, false, false⟩, [])
  else if size2 > MAX_SPEC_BYTES then Except.ok (⟨false, false, false⟩, [])
  else
    let spec1_public := _get_public_spec content1
    let spec2_public := _get_public_spec content2
    if spec1_public = spec2_public then Except.ok (⟨false, false, false⟩, [])
    else
      match py_call_guard query_model_param_count judge_call_arg_count "query_model"
          (llm.query_model env.attempts env.prompt (model.getD "") spec1_public
            spec2_public) with
      | Except.error e => Except.error e
      | Except.ok (response, _usage) =>
          let base_model_name := model_key.getD (model.getD "")
          let analyzer_name := base_model_name ++ "(" ++ prompt_name ++ ")"
          let parsed := (py_splitlines response).filterMap parse_change_line
          let changes := parsed.map fun pc =>
            (analyzer_name,
             ChangeInfo.mk
               (if pc.1 = "MAJOR" then ChangeType.MAJOR else ChangeType.MINOR)
               pc.2.1 pc.2.2.1 pc.2.2.2 path2 path1)
          let has_major := parsed.any fun pc => pc.1 == "MAJOR"
          let has_minor := parsed.any fun pc => pc.1 == "minor"
          Except.ok (⟨has_major, has_minor, true⟩, changes)

end specs

namespace releases

/-- Python `str.find` for a literal pattern on an explicit character list:
index of the first occurrence, or `none` (Python returns `-1`). -/
def findSubstrAux (pat : List Char) : List Char → Nat → Option Nat
  | [], i => if pat.isEmpty then some i else none
  | l@(_ :: rest), i => if pat.isPrefixOf l then some i else findSubstrAux pat rest (i + 1)

/-- Python `re.sub(r"\s+", " ", s)`: every maximal run of white space becomes
a single space.  The flag records whether the previous character was part of
a run already replaced. -/
def collapseWsAux : Bool → List Char → List Char
  | _, [] => []
  | prev, c :: rest =>
      if isPySpace c then
        if prev then collapseWsAux true rest else ' ' :: collapseWsAux true rest
      else c :: collapseWsAux false rest

/-- Python `re.sub(pat, "", s)` for a literal pattern: delete every
non-overlapping occurrence scanning left to right.  The fuel argument is an
upper bound on the number of characters still to scan (each step consumes at
least one), keeping the recursion structural. -/
def removeAllSubAux (pat : List Char) : Nat → List Char → List Char
  | 0, l => l
  | _ + 1, [] => []
  | fuel + 1, c :: rest =>
      if pat ≠ [] ∧ pat.isPrefixOf (c :: rest) then
        removeAllSubAux pat fuel (rest.drop (pat.length - 1))
      else c :: removeAllSubAux pat fuel rest

/-- Python `re.sub(pat, "", s)` for a literal pattern. -/
def removeAllSub (pat : List Char) (l : List Char) : List Char :=
  removeAllSubAux pat l.length l

/-- Python regex class `\w` (ASCII word characters). -/
def isWordChar (c : Char) : Bool := c.isAlphanum || c = '_'

/-- Python `re.search(r"\b<word>\b", s)`: index of the first occurrence of
the word that is delimited by non-word characters (or the ends of the
string) on both sides.  `prev` is the character just before the current
position. -/
def findWordAux (w : List Char) : Option Char → List Char → Nat → Option Nat
  | _, [], _ => none
  | prev, l@(c :: rest), i =>
      if w.isPrefixOf l &&
         (match prev with
          | none => true
          | some p => !isWordChar p) &&
         (match l.drop w.length with
          | [] => true
          | d :: _ => !isWordChar d) then
        some i
      else findWordAux w (some c) rest (i + 1)

/-- releases.py `is_private_package` applied to the file content (the
`FileNotFoundError`/`UnicodeDecodeError` guard is outside this pure text
heuristic): strip `--` comments per line, join with spaces, lowercase,
collapse white space, delete the `private with` import qualifiers, then
declare the package private when a word `private` occurs before the word
`package`, ignoring a `private` that follows a `generic`. -/
def is_private_package (content : String) : Bool :=
  let lines := pySplit content '\n'
  let cleaned_lines := lines.map fun line =>
    match findSubstrAux ['-', '-'] line.toList 0 with
    | some p => String.mk (line.toList.take p)
    | none => line
  let cleaned0 := (String.intercalate " " cleaned_lines).toList.map Char.toLower
  let cleaned1 := collapseWsAux false cleaned0
  let cleaned := removeAllSub ("private with".toList) cleaned1
  let private_match := findWordAux ("private".toList) none cleaned 0
  let generic_match := findWordAux ("generic".toList) none cleaned 0
  let package_match := findWordAux ("package".toList) none cleaned 0
  let private_match :=
    match generic_match, private_match with
    | some g, some p => if p > g then none else some p
    | _, _ => private_match
  match private_match, package_match with
  | some p, some k => decide (p < k)
  | _, _ => false

/-- A spec file as seen by the differ: its path and its content. -/
structure SpecFile where
  path : String
  content : String
deriving DecidableEq, Repr

/-- Python `os.path.basename` for slash-separated paths. -/
def basename (p : String) : String :=
  ((pySplit p '/').getLast?).getD p

/-- releases.py `compare_spec_files`, with the context reduced to the
configured model, the file system to the optional `SpecFile` values, and the
emissions returned as the result list.  Content comparison of two public
files is delegated to `contentCompare` (specs.py `compare_spec_content`).
Note that the pure add/remove emissions happen only when `context.model` is
`None`. -/
def compare_spec_files (model : Option String)
    (contentCompare : SpecFile → SpecFile → List ChangeInfo)
    (file1 file2 : Option SpecFile) : List ChangeInfo :=
  match file1, file2 with
  | none, none => []
  | none, some f2 =>
      if is_private_package f2.content then []
      else if model = none then
        [⟨ChangeType.MINOR, 0, 0, "Public spec file added: " ++ basename f2.path,
          f2.path, ""⟩]
      else []
  | some f1, none =>
      if is_private_package f1.content then []
      else if model = none then
        [⟨ChangeType.MAJOR, 0, 0, "Public spec file removed: " ++ basename f1.path,
          "", f1.path⟩]
      else []
  | some f1, some f2 =>
      let is_private_1 := is_private_package f1.content
      let is_private_2 := is_private_package f2.content
      if is_private_1 && is_private_2 then []
      else if is_private_1 ≠ is_private_2 then
        [⟨(if is_private_1 then ChangeType.MINOR else ChangeType.MAJOR), 0, 0,
          "Public spec file " ++ (if is_private_1 then "added" else "removed") ++ ": " ++
            basename f2.path,
          f2.path, f1.path⟩]
      else contentCompare f1 f2

/-- releases.py `fix_version`: append `.0.0` to a dotless version, `.0` to a
single-dot one. -/
def fix_version (v : String) : String :=
  if !(v.toList.contains '.') then v ++ ".0.0"
  else if v.toList.count '.' = 1 then v ++ ".0"
  else v

/-- The walker configuration: run flags, the configured judge model, which
diagnoses already exist in the ledger for a given newer version, and the
outcome of `compare_specs` for a pair (the emitted change records, or the
exception it raised). -/
structure WalkConfig where
  full : Bool
  redo : Bool
  model : Option String
  filesExists : String → Bool
  modelExists : String → Bool
  compare : String → String → Except PyExc (List ChangeRec)

/-- What `find_pairs` did for one analyzed pair: the slot is `none` when the
diagnosis already existed and was skipped. -/
structure PairRecord where
  v1 : String
  v2 : String
  files_slot : Option Diagnosis
  model_slot : Option Diagnosis
deriving DecidableEq, Repr

/-- One `try: start_diagnosis; compare_specs; finish_diagnosis` block of
releases.py `find_pairs`.  `start_diagnosis` creates the record with
`changes := []`; an exception caught by `except Exception` is converted by
`finish_diagnosis_with_error` (which deletes the `changes` key, so the
partially emitted list passed there is immaterial); `SystemExit` is not an
`Exception` and propagates. -/
def run_diagnosis_slot (compare : String → String → Except PyExc (List ChangeRec))
    (v1 v2 analyzer : String) : Except PyExc Diagnosis :=
  let body : Except PyExc Diagnosis :=
    match compare v1 v2 with
    | Except.error e => Except.error e
    | Except.ok changes =>
        context.finish_diagnosis v1 v2 analyzer { changes := some changes }
  match body with
  | Except.ok d => Except.ok d
  | Except.error e =>
      if e.isException then
        Except.ok (context.finish_diagnosis_with_error e.message { changes := some [] })
      else Except.error e

/-- The walker state carried through the loop of `find_pairs`:
`found_count`, the three dedup flags, and (most recent first) the records of
the processed pairs. -/
structure WalkState where
  found : Nat := 0
  major_found : Bool := false
  minor_found : Bool := false
  patch_found : Bool := false
  processed : List PairRecord := []
deriving DecidableEq, Repr

/-- The judge-model section of the per-pair body of `find_pairs`: when a
model is configured, run the model slot under the normalized key unless a
cached model diagnosis survives (`redo` deletes it). -/
def process_pair_model_part (cfg : WalkConfig) (v1 v2 : String)
    (files_slot : Option Diagnosis) : Except PyExc PairRecord :=
  match cfg.model with
  | none => Except.ok ⟨v1, v2, files_slot, none⟩
  | some m =>
      let model_key := (context.normalize_model_name (some m)).getD m
      let model_exists := cfg.modelExists v2
      let model_exists := if cfg.redo ∧ model_exists = true then false else model_exists
      if model_exists then Except.ok ⟨v1, v2, files_slot, none⟩
      else
        match run_diagnosis_slot cfg.compare v1 v2 model_key with
        | Except.ok d => Except.ok ⟨v1, v2, files_slot, some d⟩
        | Except.error e => Except.error e

/-- The per-pair body of `find_pairs` after a pair is counted: the `files`
slot (respecting the existing-diagnosis cache and `redo`, which deletes a
cached `files` diagnosis only when no model is configured), then the
judge-model section. -/
def process_pair (cfg : WalkConfig) (v1 v2 : String) : Except PyExc PairRecord :=
  let files_exists := cfg.filesExists v2
  let files_exists :=
    if cfg.redo ∧ files_exists = true ∧ cfg.model = none then false else files_exists
  let filesRes : Except PyExc (Option Diagnosis) :=
    if files_exists then Except.ok none
    else
      match run_diagnosis_slot cfg.compare v1 v2 "files" with
      | Except.ok d => Except.ok (some d)
      | Except.error e => Except.error e
  match filesRes with
  | Except.error e => Except.error e
  | Except.ok files_slot => process_pair_model_part cfg v1 v2 files_slot

/-- The non-full-mode bump gate of the walker loop: decide whether the pair
is processed and update the three dedup flags; in full mode every pair
passes with the state unchanged.  A parse failure of either version string
(`ValueError` caught in the loop) or a NONE bump means skipping. -/
def walker_bump_gate (cfg : WalkConfig) (v1 v2 : String) (st : WalkState) :
    Bool × WalkState :=
  if cfg.full then (true, st)
  else
    match parseVersion v1, parseVersion v2 with
    | some a, some b =>
        match context._detect_version_bump a b with
        | BumpType.MAJOR =>
            if st.major_found then (false, st)
            else (true, { st with major_found := true })
        | BumpType.MINOR =>
            if st.minor_found then (false, st)
            else (true, { st with minor_found := true })
        | BumpType.PATCH =>
            if st.patch_found then (false, st)
            else (true, { st with patch_found := true })
        | BumpType.NONE => (false, st)
    | _, _ => (false, st)

/-- The backward-walk loop of releases.py `find_pairs`.  The chain lists the
successive answers of `find_previous_version` (already `fix_version`-fixed);
its end is the index answering `None`.  Per pair: the pre-1.0 skip parses
`int(v1.split('.')[0])` (whose `ValueError` propagates uncaught); the bump
gate skips non-full-mode pairs; a processed pair is counted and diagnosed;
in non-full mode the walk stops early once all three bump kinds are
covered. -/
def find_pairs_go (cfg : WalkConfig) : List String → String → WalkState →
    Except PyExc WalkState
  | [], _, st => Except.ok st
  | v1 :: rest, v2, st =>
      match pyInt ((pySplit v1 '.').headD "") with
      | none =>
          Except.error (PyExc.valueError
            ("invalid literal for int() with base 10: " ++ v1))
      | some m1 =>
          if m1 < 1 then find_pairs_go cfg rest v1 st
          else
            let proceed : Bool × WalkState := walker_bump_gate cfg v1 v2 st
            if proceed.1 then
              match process_pair cfg v1 v2 with
              | Except.error e => Except.error e
              | Except.ok pr =>
                  let st' := { proceed.2 with
                                found := proceed.2.found + 1,
                                processed := pr :: proceed.2.processed }
                  if !cfg.full && st'.major_found && st'.minor_found && st'.patch_found then
                    Except.ok st'
                  else
                    find_pairs_go cfg rest v1 st'
            else
              find_pairs_go cfg rest v1 proceed.2

/-- releases.py `find_pairs` for one crate: skip external/binary crates and
crates whose only release is 0.1.0, then run the backward walk from the
crate's fixed last version.  Returns the pair count and the processed-pair
records (oldest last in the accumulator, reversed here to walk order). -/
def find_pairs (cfg : WalkConfig) (is_external is_binary : Bool) (last_version : String)
    (chain : List String) : Except PyExc (Nat × List PairRecord) :=
  if is_external || is_binary then Except.ok (0, [])
  else
    let last := fix_version last_version
    if last = "0.1.0" then Except.ok (0, [])
    else
      match find_pairs_go cfg chain last {} with
      | Except.ok st => Except.ok (st.found, st.processed.reverse)
      | Except.error e => Except.error e

end releases

/-- The attempt outcomes that the retry loop treats as retryable failures:
HTTP errors with a missing or 4xx/5xx status, wrong-shape responses and
network errors. -/
def llm.retryable_failure : llm.AttemptOutcome → Prop
  | llm.AttemptOutcome.httpError status => llm.retryableStatus status = true
  | llm.AttemptOutcome.badStructure _ => True
  | llm.AttemptOutcome.networkError _ => True
  | _ => False

/-- A comparison step is benign when any exception it raises is an ordinary
`Exception` (so the per-pair `except Exception` handler catches it). -/
def releases.CompareBenign
    (compare : String → String → Except PyExc (List ChangeRec)) : Prop :=
  ∀ a b e, compare a b = Except.error e → e.isException = true

/-- The consecutive pairs a full-mode walk processes: every chain step whose
older version has an integer major component of at least 1 (paired with the
version above it); used to specify `find_pairs_go` in full mode. -/
def releases.full_walk_pairs : String → List String → List (String × String)
  | _, [] => []
  | v2, v1 :: rest =>
      if 1 ≤ (pyInt ((pySplit v1 '.').headD "")).getD 0 then
        (v1, v2) :: releases.full_walk_pairs v1 rest
      else releases.full_walk_pairs v1 rest

/-- A walker configuration with no judge model, empty caches and a
structural comparison that emits no changes, in full mode. -/
def releases.cfg_full_files : releases.WalkConfig :=
  { full := true, redo := false, model := none,
    filesExists := fun _ => false, modelExists := fun _ => false,
    compare := fun _ _ => Except.ok [] }

/-- The same benign walker configuration in the default non-full mode. -/
def releases.cfg_nonfull_files : releases.WalkConfig :=
  { full := false, redo := false, model := none,
    filesExists := fun _ => false, modelExists := fun _ => false,
    compare := fun _ _ => Except.ok [] }

/-- A network on which every attempt times out. -/
def llm.all_attempts_fail : Nat → llm.AttemptOutcome :=
  fun _ => llm.AttemptOutcome.networkError "Connection timed out"

/-- A comparison step whose judge call always exhausts its retries: the
pair-analysis body reaches `query_model`, which never gets an answer. -/
def releases.judge_compare : String → String → Except PyExc (List ChangeRec) :=
  fun _ _ =>
    match llm.query_model llm.all_attempts_fail "PROMPT" "test/model" "OLD" "NEW" with
    | Except.ok _ => Except.ok []
    | Except.error e => Except.error e

/-- A walker configuration with a judge model configured whose network is
down: every pair analysis exhausts the retries of the Judge Client. -/
def releases.cfg_judge_down : releases.WalkConfig :=
  { full := false, redo := false, model := some "test/model",
    filesExists := fun _ => false, modelExists := fun _ => false,
    compare := releases.judge_compare }

/-- A spec-comparison environment whose network answers every attempt with a
well-shaped response, showing the wrong-arity failure is not a network
problem. -/
def specs.env_ok : specs.SpecEnv :=
  { attempts := fun _ => llm.AttemptOutcome.success "MAJOR (1, 1): removed procedure" none,
    prompt := "You are a semantic versioning assistant." }

end Lasv

namespace Lasv

/-- Claim C1. -/
theorem bump_classification (v1 v2 : Version) :
    (1 ≤ v1.major →
      ((context._detect_version_bump v1 v2 = BumpType.MAJOR ↔ v1.major < v2.major) ∧
       (context._detect_version_bump v1 v2 = BumpType.MINOR ↔
          v2.major = v1.major ∧ v1.minor < v2.minor) ∧
       (context._detect_version_bump v1 v2 = BumpType.PATCH ↔
          v2.major = v1.major ∧ v2.minor = v1.minor ∧ v1.patch < v2.patch) ∧
       (context._detect_version_bump v1 v2 = BumpType.NONE ↔
          ¬ v1.major < v2.major ∧ ¬ (v2.major = v1.major ∧ v1.minor < v2.minor) ∧
          ¬ (v2.major = v1.major ∧ v2.minor = v1.minor ∧ v1.patch < v2.patch)))) ∧
    (v1.major = 0 →
      (((v1.major < v2.major ∨ v1.minor < v2.minor) →
          context._detect_version_bump v1 v2 = BumpType.MAJOR) ∧
       ((v2.major = v1.major ∧ v2.minor = v1.minor ∧ v1.patch < v2.patch) →
          context._detect_version_bump v1 v2 = BumpType.MINOR) ∧
       ((v2.major = v1.major ∧ v2.minor = v1.minor ∧ v2.patch = v1.patch) →
          context._detect_version_bump v1 v2 = BumpType.NONE))) := by
  obtain ⟨a1, b1, c1, p1⟩ := v1
  obtain ⟨a2, b2, c2, p2⟩ := v2
  simp only [context._detect_version_bump]
  constructor
  · intro h1
    split_ifs <;> simp_all <;> omega
  · intro h0
    split_ifs <;> simp_all <;> omega

/-- Claim C2. -/
theorem minor_bump_major_changes_noncompliant
    (major_changes minor_changes : List ChangeRec) (analyzer : String)
    (h : major_changes ≠ []) :
    context._calculate_compliance BumpType.MINOR major_changes minor_changes analyzer =
      (Compliance.NO, "Minor version bump but MAJOR changes found.") := by
  simp only [context._calculate_compliance, if_pos h]

/-- witness C2 -/
theorem minor_bump_major_changes_noncompliant_witness :
    ([(⟨"MAJOR", 1, 2, "removed procedure", none, none⟩ : ChangeRec)] ≠ []) ∧
    context._calculate_compliance BumpType.MINOR
        [⟨"MAJOR", 1, 2, "removed procedure", none, none⟩]
        [] "files" =
      (Compliance.NO, "Minor version bump but MAJOR changes found.") :=
  ⟨by decide,
   minor_bump_major_changes_noncompliant _ [] "files" (by decide)⟩

/-- Claim C3. -/
theorem major_bump_structural_exemption
    (minor_changes : List ChangeRec) (analyzer : String) :
    context._calculate_compliance BumpType.MAJOR [] minor_changes "files" =
      (Compliance.STRICT, "") ∧
    (analyzer ≠ "files" →
      context._calculate_compliance BumpType.MAJOR [] minor_changes analyzer =
        (Compliance.LAX, "Major version bump but no MAJOR changes found.")) := by
  constructor
  · simp [context._calculate_compliance]
  · intro h
    simp [context._calculate_compliance, h]

/-- witness C3 -/
theorem major_bump_structural_exemption_witness :
    (("model-x(detailed)" : String) ≠ "files") ∧
    context._calculate_compliance BumpType.MAJOR []
        [⟨"minor", 3, 4, "added procedure", none, none⟩] "model-x(detailed)" =
      (Compliance.LAX, "Major version bump but no MAJOR changes found.") :=
  ⟨by decide,
   (major_bump_structural_exemption [⟨"minor", 3, 4, "added procedure", none, none⟩]
      "model-x(detailed)").2 (by decide)⟩

/-- Claim C9. -/
theorem duplicated_definitions_agree :
    (∀ v1 v2, lasv_main._detect_version_bump v1 v2 = context._detect_version_bump v1 v2) ∧
    (∀ bump major_changes minor_changes analyzer,
      lasv_main._calculate_compliance bump major_changes minor_changes analyzer =
        context._calculate_compliance bump major_changes minor_changes analyzer) :=
  ⟨fun _ _ => rfl, fun _ _ _ _ => rfl⟩

/-- witness C1 -/
theorem bump_classification_witness :
    (1 ≤ (⟨1, 2, 3, none⟩ : Version).major ∧
      context._detect_version_bump ⟨1, 2, 3, none⟩ ⟨1, 3, 0, none⟩ = BumpType.MINOR) ∧
    ((⟨0, 1, 0, none⟩ : Version).major = 0 ∧
      context._detect_version_bump ⟨0, 1, 0, none⟩ ⟨0, 2, 0, none⟩ = BumpType.MAJOR) :=
  ⟨⟨by decide,
    ((bump_classification ⟨1, 2, 3, none⟩ ⟨1, 3, 0, none⟩).1 (by decide)).2.1.mpr (by decide)⟩,
   ⟨by decide,
    ((bump_classification ⟨0, 1, 0, none⟩ ⟨0, 2, 0, none⟩).2 (by decide)).1 (by decide)⟩⟩


/-- Every failure of `finish_diagnosis` is an ordinary exception (a
`ValueError` from version parsing or a `KeyError` on the changes key), so the
per-pair `except Exception` wrapper catches it. -/
theorem finish_diagnosis_error_isException (pv cv analyzer : String) (diag : Diagnosis)
    (e : PyExc) (h : context.finish_diagnosis pv cv analyzer diag = Except.error e) :
    e.isException = true := by
  unfold context.finish_diagnosis at h
  split at h
  · split at h
    · injection h with h
      subst h
      rfl
    · dsimp only at h
      split_ifs at h
  · injection h with h
    subst h
    rfl

/-- Claim C10. -/
theorem finish_diagnosis_noncompliance_iff (pv cv analyzer : String) (diag d : Diagnosis)
    (h : context.finish_diagnosis pv cv analyzer diag = Except.ok d) :
    d.noncompliance.isSome = true ↔
      (d.compliant = some Compliance.LAX.value ∨ d.compliant = some Compliance.NO.value) := by
  unfold context.finish_diagnosis at h
  split at h
  case _ v1 v2 heq1 heq2 =>
    split at h
    · cases h
    case _ changes hch =>
      dsimp only at h
      rcases hcr : context._calculate_compliance (context._detect_version_bump v1 v2)
          (changes.filter fun c => c.severity == "MAJOR")
          (changes.filter fun c => c.severity == "minor") analyzer with ⟨comp, reason⟩
      rw [hcr] at h
      dsimp only at h
      split_ifs at h with h1 h2
      · injection h with h
        subst h
        simp [h1, Compliance.value]
      · injection h with h
        subst h
        simp [h2, Compliance.value]
      · injection h with h
        subst h
        cases comp <;> simp_all [Compliance.value]
  · cases h

/-- witness C10 -/
theorem finish_diagnosis_noncompliance_iff_witness :
    (context.finish_diagnosis "1.0.0" "1.1.0" "files"
        { changes := some [], noncompliance := some "stale" } =
      Except.ok { changes := some [], compliant := some "strict", noncompliance := none }) ∧
    (({ changes := some [], compliant := some "strict", noncompliance := none } :
        Diagnosis).noncompliance.isSome = true ↔
      (({ changes := some [], compliant := some "strict", noncompliance := none } :
          Diagnosis).compliant = some Compliance.LAX.value ∨
       ({ changes := some [], compliant := some "strict", noncompliance := none } :
          Diagnosis).compliant = some Compliance.NO.value)) :=
  ⟨rfl,
   finish_diagnosis_noncompliance_iff "1.0.0" "1.1.0" "files"
     { changes := some [], noncompliance := some "stale" } _ rfl⟩


/-- Claim C6 counterexample: a public spec file present in the older release
and absent from the newer one produces NO change at all when a judge model is
configured, because the add/remove emissions are guarded by
`context.model is None`. -/
theorem removed_public_spec_suppressed_when_model_configured :
    releases.is_private_package "package Foo is\nend Foo;\n" = false ∧
    releases.compare_spec_files (some "test/model") (fun _ _ => [])
        (some ⟨"src/foo.ads", "package Foo is\nend Foo;\n"⟩) none = [] :=
  ⟨rfl, rfl⟩

/-- Claim C6 (amended): when no judge model is configured, a public spec file
present only in the older release yields exactly one MAJOR change with the
removal description at location (0,0); a private removed file yields no
change under any model configuration. -/
theorem removed_public_spec_structural_emission
    (contentCompare : releases.SpecFile → releases.SpecFile → List ChangeInfo)
    (f1 : releases.SpecFile) (model : Option String) :
    (releases.is_private_package f1.content = false →
      releases.compare_spec_files none contentCompare (some f1) none =
        [⟨ChangeType.MAJOR, 0, 0,
          "Public spec file removed: " ++ releases.basename f1.path, "", f1.path⟩]) ∧
    (releases.is_private_package f1.content = true →
      releases.compare_spec_files model contentCompare (some f1) none = []) := by
  constructor <;> intro h <;> simp [releases.compare_spec_files, h]

/-- witness C6 -/
theorem removed_public_spec_structural_emission_witness :
    releases.compare_spec_files none (fun _ _ => [])
        (some ⟨"foo.ads", "package Foo is\nend Foo;\n"⟩) none =
      [⟨ChangeType.MAJOR, 0, 0,
        "Public spec file removed: " ++ releases.basename "foo.ads", "", "foo.ads"⟩] :=
  (removed_public_spec_structural_emission (fun _ _ => [])
    ⟨"foo.ads", "package Foo is\nend Foo;\n"⟩ none).1 rfl

/-- Claim C8: the judge invocation in `compare_spec_content` passes four
positional arguments to the three-parameter `query_model`, so reaching the
call (model configured, both sizes within bounds, public texts differing)
raises `TypeError` instead of producing a (content, usage) pair — even on a
network that answers every attempt. -/
theorem judge_call_wrong_arity :
    specs.judge_call_arg_count ≠ specs.query_model_param_count ∧
    specs.compare_spec_content specs.env_ok (some "test/model") (some "test/model")
        10 10 "old/a.ads" "new/a.ads" "old text" "new text" "detailed" =
      Except.error (PyExc.typeError
        "query_model() takes 3 positional arguments but 4 were given") :=
  ⟨by decide, rfl⟩

/-- A version-parse failure makes `finish_diagnosis` raise (modelled
`ValueError`) without computing any bump or compliance verdict. -/
theorem finish_diagnosis_parse_failure (pv cv analyzer : String) (diag : Diagnosis)
    (hparse : parseVersion pv = none ∨ parseVersion cv = none) :
    context.finish_diagnosis pv cv analyzer diag =
      Except.error (PyExc.valueError
        ("Non-semver version found: " ++ pv ++ " -> " ++ cv)) := by
  rcases hp1 : parseVersion pv with _ | a <;> rcases hp2 : parseVersion cv with _ | b <;>
    simp_all [context.finish_diagnosis]

/-- Claim C7 counterexample: in the default non-full walk a pair with an
unparseable version string is skipped with no error, no diagnosis and no
count — the version-parse failure is swallowed by the bump pre-check rather
than being fatal to the pair diagnosis. -/
theorem unparseable_version_pair_silently_skipped :
    parseVersion "1.2.3.4" = none ∧
    releases.find_pairs releases.cfg_nonfull_files false false "2.0.0"
        ["1.2.3.4", "1.0.0"] = Except.ok (0, []) :=
  ⟨rfl, rfl⟩

/-- Claim C7 (amended): inside a diagnosis, a version-parse failure
propagates out of `finish_diagnosis` and no verdict is computed from a bump;
the walker wrapper converts it into an ERROR diagnosis with the change list
discarded; but the default (non-full) walk pre-checks the bump and silently
skips a pair with an unparseable version, producing no diagnosis at all. -/
theorem version_parse_failure_handling
    (pv cv analyzer : String) (diag : Diagnosis) (changes : List ChangeRec)
    (cfg : releases.WalkConfig) (v1 v2 : String) (rest : List String)
    (st : releases.WalkState) (m1 : Int)
    (hparse : parseVersion pv = none ∨ parseVersion cv = none) :
    (context.finish_diagnosis pv cv analyzer diag =
      Except.error (PyExc.valueError
        ("Non-semver version found: " ++ pv ++ " -> " ++ cv))) ∧
    (releases.run_diagnosis_slot (fun _ _ => Except.ok changes) pv cv analyzer =
      Except.ok
        { changes := none, compliant := some Compliance.ERROR.value,
          noncompliance := none,
          error_message := some ("Non-semver version found: " ++ pv ++ " -> " ++ cv) }) ∧
    (cfg.full = false →
      pyInt ((pySplit v1 '.').headD "") = some m1 →
      ¬ m1 < 1 →
      (parseVersion v1 = none ∨ parseVersion v2 = none) →
      releases.find_pairs_go cfg (v1 :: rest) v2 st =
        releases.find_pairs_go cfg rest v1 st) := by
  refine ⟨finish_diagnosis_parse_failure pv cv analyzer diag hparse, ?_, ?_⟩
  · unfold releases.run_diagnosis_slot
    dsimp only
    rw [finish_diagnosis_parse_failure pv cv analyzer _ hparse]
    rfl
  · intro hfull hint hm1 hpv
    rcases hq1 : parseVersion v1 with _ | a <;> rcases hq2 : parseVersion v2 with _ | b <;>
      simp_all [releases.find_pairs_go, releases.walker_bump_gate]

/-- witness C7 -/
theorem version_parse_failure_handling_witness :
    (context.finish_diagnosis "1.x.0" "1.0.0" "files" { changes := some [] } =
      Except.error (PyExc.valueError
        ("Non-semver version found: " ++ "1.x.0" ++ " -> " ++ "1.0.0"))) ∧
    (releases.run_diagnosis_slot (fun _ _ => Except.ok []) "1.x.0" "1.0.0" "files" =
      Except.ok
        { changes := none, compliant := some Compliance.ERROR.value,
          noncompliance := none,
          error_message := some ("Non-semver version found: " ++ "1.x.0" ++ " -> " ++ "1.0.0") }) ∧
    (releases.find_pairs_go releases.cfg_nonfull_files ["1.2.3.4"] "2.0.0" {} =
      releases.find_pairs_go releases.cfg_nonfull_files [] "1.2.3.4" {}) := by
  have h := version_parse_failure_handling "1.x.0" "1.0.0" "files" { changes := some [] } []
      releases.cfg_nonfull_files "1.2.3.4" "2.0.0" [] {} 1 (Or.inl rfl)
  exact ⟨h.1, h.2.1, h.2.2 rfl rfl (by decide) (Or.inl rfl)⟩


/-- When every attempt fails retryably, the retry loop of `query_model`
terminates the process (`sys.exit(1)`, i.e. `SystemExit`). -/
theorem retryLoop_all_fail (attempts : Nat → llm.AttemptOutcome) (usage : llm.LlmUsage)
    (h : ∀ n, llm.retryable_failure (attempts n)) :
    ∀ fuel rc, llm.retryLoop attempts usage rc fuel = Except.error (PyExc.systemExit 1) := by
  intro fuel
  induction fuel with
  | zero => intro rc; rfl
  | succ n ih =>
      intro rc
      have hr := h rc
      unfold llm.retryLoop
      cases hx : attempts rc with
      | success content cost =>
          rw [hx] at hr
          simp [llm.retryable_failure] at hr
      | httpError status =>
          rw [hx] at hr
          simp only [llm.retryable_failure] at hr
          dsimp only
          by_cases hrc : rc < llm.max_retries
          · rw [if_pos ⟨hrc, hr⟩]
            exact ih (rc + 1)
          · rw [if_neg fun hc => hrc hc.1]
      | badStructure ec =>
          dsimp only
          by_cases hrc : rc < llm.max_retries
          · rw [if_pos hrc]
            exact ih (rc + 1)
          · rw [if_neg hrc]
      | networkError msg =>
          dsimp only
          by_cases hrc : rc < llm.max_retries
          · rw [if_pos hrc]
            exact ih (rc + 1)
          · rw [if_neg hrc]
      | jsonError => rfl

/-- Claim C4 counterexample: with a judge model configured and the network
failing every attempt, a two-pair walk aborts with `SystemExit` out of the
first pair: the failure is not downgraded to an ERROR diagnosis and the walk
does not continue to the second pair. -/
theorem retry_exhaustion_aborts_walk :
    releases.find_pairs releases.cfg_judge_down false false "1.1.0" ["1.0.0", "0.9.0"] =
      Except.error (PyExc.systemExit 1) := rfl

/-- Claim C4 (amended): exhausting the retries makes the Judge Client exit
the process (`SystemExit`), which is not an `Exception` and therefore
escapes the per-pair wrapper of the Walker, aborting the whole walk; only an
ordinary exception raised during a pair analysis is downgraded to an ERROR
diagnosis (change list discarded) for that one pair. -/
theorem retry_exhaustion_fatal_even_in_walker
    (attempts : Nat → llm.AttemptOutcome) (prompt model s1 s2 : String)
    (compare : String → String → Except PyExc (List ChangeRec))
    (v1 v2 analyzer : String) (e : PyExc)
    (hfail : ∀ n, llm.retryable_failure (attempts n)) :
    (llm.query_model attempts prompt model s1 s2 = Except.error (PyExc.systemExit 1)) ∧
    (PyExc.isException (PyExc.systemExit 1) = false) ∧
    (compare v1 v2 = Except.error e → e.isException = false →
      releases.run_diagnosis_slot compare v1 v2 analyzer = Except.error e) ∧
    (compare v1 v2 = Except.error e → e.isException = true →
      releases.run_diagnosis_slot compare v1 v2 analyzer =
        Except.ok (context.finish_diagnosis_with_error e.message { changes := some [] })) := by
  refine ⟨?_, rfl, ?_, ?_⟩
  · unfold llm.query_model
    exact retryLoop_all_fail attempts _ hfail (llm.max_retries + 1) 0
  · intro hcmp hex
    unfold releases.run_diagnosis_slot
    rw [hcmp]
    simp [hex]
  · intro hcmp hex
    unfold releases.run_diagnosis_slot
    rw [hcmp]
    simp [hex]

/-- witness C4 -/
theorem retry_exhaustion_fatal_even_in_walker_witness :
    (llm.query_model llm.all_attempts_fail "PROMPT" "test/model" "OLD" "NEW" =
      Except.error (PyExc.systemExit 1)) ∧
    (releases.run_diagnosis_slot (fun _ _ => Except.error (PyExc.systemExit 1))
        "1.0.0" "1.1.0" "files" = Except.error (PyExc.systemExit 1)) ∧
    (releases.run_diagnosis_slot (fun _ _ => Except.error (PyExc.valueError "boom"))
        "1.0.0" "1.1.0" "files" =
      Except.ok (context.finish_diagnosis_with_error
        (PyExc.message (PyExc.valueError "boom")) { changes := some [] })) := by
  have h1 := retry_exhaustion_fatal_even_in_walker llm.all_attempts_fail "PROMPT"
      "test/model" "OLD" "NEW" (fun _ _ => Except.error (PyExc.systemExit 1))
      "1.0.0" "1.1.0" "files" (PyExc.systemExit 1) (fun _ => True.intro)
  have h2 := retry_exhaustion_fatal_even_in_walker llm.all_attempts_fail "PROMPT"
      "test/model" "OLD" "NEW" (fun _ _ => Except.error (PyExc.valueError "boom"))
      "1.0.0" "1.1.0" "files" (PyExc.valueError "boom") (fun _ => True.intro)
  exact ⟨h1.1, h1.2.2.1 rfl rfl, h2.2.2.2 rfl rfl⟩


/-- In full mode the bump gate passes every pair with the state unchanged. -/
theorem walker_bump_gate_full (cfg : releases.WalkConfig) (v1 v2 : String)
    (st : releases.WalkState) (hfull : cfg.full = true) :
    releases.walker_bump_gate cfg v1 v2 st = (true, st) := by
  unfold releases.walker_bump_gate
  rw [hfull]
  rfl

/-- Under a benign comparison every diagnosis slot run succeeds: comparison
exceptions and `finish_diagnosis` failures are all ordinary exceptions and
are converted into ERROR diagnoses by the wrapper. -/
theorem run_diagnosis_slot_ok_of_benign
    (compare : String → String → Except PyExc (List ChangeRec))
    (hb : releases.CompareBenign compare) (v1 v2 analyzer : String) :
    ∃ d, releases.run_diagnosis_slot compare v1 v2 analyzer = Except.ok d := by
  unfold releases.run_diagnosis_slot
  dsimp only
  cases hc : compare v1 v2 with
  | error e =>
      have he := hb v1 v2 e hc
      simp [he]
  | ok changes =>
      dsimp only
      cases hf : context.finish_diagnosis v1 v2 analyzer { changes := some changes } with
      | ok d => exact ⟨d, rfl⟩
      | error e =>
          have he := finish_diagnosis_error_isException v1 v2 analyzer _ e hf
          simp [he]

/-- Under a benign comparison the model section of a pair run succeeds,
keeping the given files slot. -/
theorem process_pair_model_part_ok_of_benign (cfg : releases.WalkConfig)
    (hb : releases.CompareBenign cfg.compare) (v1 v2 : String)
    (files_slot : Option Diagnosis) :
    ∃ ms, releases.process_pair_model_part cfg v1 v2 files_slot =
      Except.ok ⟨v1, v2, files_slot, ms⟩ := by
  unfold releases.process_pair_model_part
  cases hm : cfg.model with
  | none => exact ⟨none, rfl⟩
  | some m =>
      dsimp only
      obtain ⟨d, hd⟩ := run_diagnosis_slot_ok_of_benign cfg.compare hb v1 v2
        ((context.normalize_model_name (some m)).getD m)
      by_cases hex : (if cfg.redo = true ∧ cfg.modelExists v2 = true then false
          else cfg.modelExists v2) = true
      · rw [if_pos hex]
        exact ⟨none, rfl⟩
      · rw [if_neg hex, hd]
        exact ⟨some d, rfl⟩

/-- Under a benign comparison `process_pair` always succeeds and records the
pair it was given. -/
theorem process_pair_ok_of_benign (cfg : releases.WalkConfig)
    (hb : releases.CompareBenign cfg.compare) (v1 v2 : String) :
    ∃ fs ms, releases.process_pair cfg v1 v2 = Except.ok ⟨v1, v2, fs, ms⟩ := by
  obtain ⟨d0, hd0⟩ := run_diagnosis_slot_ok_of_benign cfg.compare hb v1 v2 "files"
  unfold releases.process_pair
  dsimp only
  by_cases hfe : (if cfg.redo = true ∧ cfg.filesExists v2 = true ∧ cfg.model = none then false
      else cfg.filesExists v2) = true
  · rw [if_pos hfe]
    dsimp only
    obtain ⟨ms, hms⟩ := process_pair_model_part_ok_of_benign cfg hb v1 v2 none
    exact ⟨none, ms, hms⟩
  · rw [if_neg hfe, hd0]
    dsimp only
    obtain ⟨ms, hms⟩ := process_pair_model_part_ok_of_benign cfg hb v1 v2 (some d0)
    exact ⟨some d0, ms, hms⟩

/-- Claim C5 counterexample: in full mode a consecutive pair whose bump is
NONE (a prerelease-to-release step between identical numeric triples) is
analyzed and counted, not skipped. -/
theorem full_mode_counts_none_bump_pair :
    context._detect_version_bump ⟨1, 2, 3, some "alpha"⟩ ⟨1, 2, 3, none⟩ = BumpType.NONE ∧
    parseVersion "1.2.3-alpha" = some ⟨1, 2, 3, some "alpha"⟩ ∧
    parseVersion "1.2.3" = some ⟨1, 2, 3, none⟩ ∧
    releases.find_pairs releases.cfg_full_files false false "1.2.3" ["1.2.3-alpha"] =
      Except.ok (1,
        [⟨"1.2.3-alpha", "1.2.3",
          some { changes := some [], compliant := some "strict" }, none⟩]) :=
  ⟨rfl, rfl, rfl, rfl⟩

/-- Claim C5 (amended): in full mode the Walker analyzes and counts every
consecutive pair of the chain whose older version is not pre-1.0.0,
regardless of its bump (NONE included); the bump-based filtering happens
only in the default non-full mode. -/
theorem full_mode_walk_processes_every_pair (cfg : releases.WalkConfig)
    (hfull : cfg.full = true) (hb : releases.CompareBenign cfg.compare) :
    ∀ (chain : List String) (v2 : String) (st : releases.WalkState),
      (∀ v ∈ chain, (pyInt ((pySplit v '.').headD "")).isSome = true) →
      ∃ st', releases.find_pairs_go cfg chain v2 st = Except.ok st' ∧
        st'.found = st.found + (releases.full_walk_pairs v2 chain).length ∧
        st'.processed.map (fun r => (r.v1, r.v2)) =
          (releases.full_walk_pairs v2 chain).reverse ++
            st.processed.map (fun r => (r.v1, r.v2)) := by
  intro chain
  induction chain with
  | nil =>
      intro v2 st _
      exact ⟨st, rfl, by simp [releases.full_walk_pairs], by simp [releases.full_walk_pairs]⟩
  | cons v1 rest ih =>
      intro v2 st hsome
      have h1 := hsome v1 (List.mem_cons_self _ _)
      obtain ⟨m1, hm1⟩ : ∃ m, pyInt ((pySplit v1 '.').headD "") = some m := by
        cases hp : pyInt ((pySplit v1 '.').headD "") with
        | none => rw [hp] at h1; cases h1
        | some m => exact ⟨m, rfl⟩
      have hrest : ∀ v ∈ rest, (pyInt ((pySplit v '.').headD "")).isSome = true :=
        fun v hv => hsome v (List.mem_cons_of_mem _ hv)
      by_cases hlt : m1 < 1
      · have hfp : releases.find_pairs_go cfg (v1 :: rest) v2 st =
            releases.find_pairs_go cfg rest v1 st := by
          conv_lhs => rw [releases.find_pairs_go.eq_def]
          dsimp only
          rw [hm1]
          dsimp only
          rw [if_pos hlt]
        have hpairs : releases.full_walk_pairs v2 (v1 :: rest) =
            releases.full_walk_pairs v1 rest := by
          conv_lhs => rw [releases.full_walk_pairs.eq_def]
          dsimp only
          rw [hm1]
          simp only [Option.getD_some]
          rw [if_neg (by omega)]
        rw [hfp, hpairs]
        exact ih v1 st hrest
      · obtain ⟨fs, ms, hpp⟩ := process_pair_ok_of_benign cfg hb v1 v2
        have hstep : releases.find_pairs_go cfg (v1 :: rest) v2 st =
            releases.find_pairs_go cfg rest v1
              { st with found := st.found + 1,
                        processed := ⟨v1, v2, fs, ms⟩ :: st.processed } := by
          conv_lhs => rw [releases.find_pairs_go.eq_def]
          dsimp only
          rw [hm1]
          dsimp only
          rw [if_neg hlt, walker_bump_gate_full cfg v1 v2 st hfull]
          dsimp only
          rw [if_pos (show true = true from rfl), hpp]
          dsimp only
          rw [if_neg (by simp [hfull])]
        have hpairs : releases.full_walk_pairs v2 (v1 :: rest) =
            (v1, v2) :: releases.full_walk_pairs v1 rest := by
          conv_lhs => rw [releases.full_walk_pairs.eq_def]
          dsimp only
          rw [hm1]
          simp only [Option.getD_some]
          rw [if_pos (by omega)]
        rw [hstep, hpairs]
        obtain ⟨st', hgo, hfound, hproc⟩ := ih v1 _ hrest
        refine ⟨st', hgo, ?_, ?_⟩
        · rw [hfound]
          simp only [List.length_cons]
          omega
        · rw [hproc]
          simp

/-- witness C5 -/
theorem full_mode_walk_processes_every_pair_witness :
    ∃ st', releases.find_pairs_go releases.cfg_full_files ["1.2.3-alpha"] "1.2.3"
        {} = Except.ok st' ∧
      st'.found = ({} : releases.WalkState).found +
        (releases.full_walk_pairs "1.2.3" ["1.2.3-alpha"]).length ∧
      st'.processed.map (fun r => (r.v1, r.v2)) =
        (releases.full_walk_pairs "1.2.3" ["1.2.3-alpha"]).reverse ++
          ({} : releases.WalkState).processed.map (fun r => (r.v1, r.v2)) :=
  full_mode_walk_processes_every_pair releases.cfg_full_files rfl
    (fun _ _ _ h => nomatch h) ["1.2.3-alpha"] "1.2.3" {} (by decide)

end Lasv
